import Mathlib

/-!
Verification of the AgriNathi advice retrieval engine and voice pipeline
orchestrator, as implemented in `app/services/agriculture_ml_service.py`,
`app/services/speech_service.py` and `app/__init__.py`.

Modelling conventions:
* Python strings are modelled as Lean `String`, and substring scanning is
  done on the underlying `List Char`.
* Python floats used only for comparisons and thresholds (similarity
  scores, confidences) are modelled as `ℚ`.
* External adapters (speech transcription, translation, speech synthesis)
  and the TF-IDF/cosine similarity computation of scikit-learn are
  collaborators outside this repository; they are passed in as oracle
  parameters.  A similarity computation that can raise (for example a
  vectorizer that was never fit) is an oracle returning `Except Unit ℚ`.
* Python dictionaries preserve insertion order, so the knowledge base and
  the keyword-to-category table become ordered association lists.
-/

/-! ## Character-list helpers (Python substring and strip semantics) -/

/-- Boolean test that the first list is a leading segment of the second. -/
def isPrefixL : List Char → List Char → Bool
  | [], _ => true
  | _ :: _, [] => false
  | a :: as, b :: bs => a == b && isPrefixL as bs

/-- Python `pat in s` substring test, on character lists. -/
def containsSub : List Char → List Char → Bool
  | s, p =>
    match s with
    | [] => p.isEmpty
    | _ :: rest => isPrefixL p s || containsSub rest p

/-- Python `str.lower()` (per-character). -/
def lowerL (s : List Char) : List Char := s.map Char.toLower

/-- Leading-whitespace removal, one half of Python `str.strip()`. -/
def trimLeft (s : List Char) : List Char := s.dropWhile Char.isWhitespace

/-- Trailing-whitespace removal, the other half of Python `str.strip()`. -/
def trimRight (s : List Char) : List Char :=
  (s.reverse.dropWhile Char.isWhitespace).reverse

/-- Python `str.strip()`. -/
def pyStrip (s : List Char) : List Char := trimRight (trimLeft s)

/-- Python truthiness/blank test `not s or s.strip() == ""`. -/
def isBlank (s : String) : Bool := s.data.all Char.isWhitespace

/-! ## Data model: knowledge items and the knowledge base

`KnowledgeItem` entries in the source are plain dictionaries with
category-specific keys, read back with `dict.get(key, default)`.  They are
modelled as a structure of optional fields. -/

structure KItem where
  name : Option String := none
  symptoms : Option (List String) := none
  causes : Option (List String) := none
  solutions : Option (List String) := none
  usage : Option (List String) := none
  benefits : Option (List String) := none
  tips : Option (List String) := none
  advice : Option String := none
  crop : Option String := none
  season : Option String := none
  spacing : Option String := none
  depth : Option String := none
  itemType : Option String := none
  deriving Repr, DecidableEq

/-- Result of `find_solution`: the dict
`{'category': ..., 'solution': ..., 'confidence': ...}`. -/
structure MLRes where
  category : String
  solution : KItem
  confidence : ℚ
  deriving Repr, DecidableEq

/-- The knowledge base: an insertion-ordered dict from category name to an
ordered list of items. -/
def KB := List (String × List KItem)

/-- `knowledge_base.get(category, [])`. -/
def kbGet (kb : KB) (cat : String) : List KItem :=
  ((List.find? (fun p => p.1 == cat) kb).map Prod.snd).getD []

/-- Predefined disease item "Leaf Blight" from `_load_knowledge_base`. -/
def leafBlight : KItem :=
  { name := some "Leaf Blight"
    symptoms := some ["brown spots on leaves", "yellowing leaves", "leaf drop"]
    causes := some ["fungal infection", "high humidity", "poor air circulation"]
    solutions := some ["Remove affected leaves", "Improve air circulation",
      "Apply copper-based fungicide", "Avoid overhead watering"] }

/-- Predefined disease item "Root Rot" from `_load_knowledge_base`. -/
def rootRot : KItem :=
  { name := some "Root Rot"
    symptoms := some ["wilting plants", "yellow leaves", "soft rotten roots"]
    causes := some ["overwatering", "poor drainage", "fungal pathogens"]
    solutions := some ["Improve drainage", "Reduce watering frequency",
      "Use well-draining soil", "Apply fungicide to soil"] }

/-- Predefined pest item "Aphids". -/
def aphids : KItem :=
  { name := some "Aphids"
    symptoms := some ["sticky leaves", "distorted growth", "ants on plants"]
    solutions := some ["Spray with soapy water", "Introduce ladybugs",
      "Use neem oil", "Remove heavily infested parts"] }

/-- Predefined pest item "Cutworms". -/
def cutworms : KItem :=
  { name := some "Cutworms"
    symptoms := some ["seedlings cut at base", "plants falling over"]
    solutions := some ["Use collars around seedlings", "Hand pick at night",
      "Apply beneficial nematodes", "Use organic pesticides"] }

/-- Predefined fertilizer item "NPK Fertilizer". -/
def npkFertilizer : KItem :=
  { name := some "NPK Fertilizer"
    itemType := some "balanced"
    usage := some ["Apply during growing season", "Mix with soil",
      "Water after application"]
    benefits := some ["Promotes overall plant growth",
      "Improves fruit/seed production", "Strengthens root system"] }

/-- Predefined fertilizer item "Organic Compost". -/
def organicCompost : KItem :=
  { name := some "Organic Compost"
    itemType := some "organic"
    usage := some ["Mix into topsoil", "Apply around plants", "Use as mulch"]
    benefits := some ["Improves soil structure", "Provides slow-release nutrients",
      "Enhances microbial activity"] }

/-- Predefined watering item. -/
def wateringItem : KItem :=
  { advice := some "Water deeply but infrequently to encourage deep root growth"
    tips := some ["Water early morning or evening",
      "Check soil moisture before watering", "Avoid wetting leaves",
      "Use drip irrigation when possible"] }

/-- Predefined planting item for maize. -/
def maizePlanting : KItem :=
  { crop := some "Maize"
    season := some "Summer rainfall areas: October-November"
    spacing := some "90cm between rows, 30-45cm between plants"
    depth := some "3-5cm deep"
    tips := some ["Plant after soil temperature reaches 10Â°C",
      "Ensure good seed-to-soil contact", "Plant in blocks for better pollination"] }

/-- `_load_knowledge_base`: the dict is created with its eight category keys
in declaration order; disease and pest items parsed from the optional
`data/pest_disease_info.json` file (parameters here) are appended first,
then the predefined items are appended by `extend`. -/
def loadKnowledgeBase (fileDiseases filePests : List KItem) : KB :=
  [("diseases", fileDiseases ++ [leafBlight, rootRot]),
   ("pests", filePests ++ [aphids, cutworms]),
   ("fertilizers", [npkFertilizer, organicCompost]),
   ("watering", [wateringItem]),
   ("planting", [maizePlanting]),
   ("weather", []),
   ("soil", []),
   ("general", [])]

/-! ## Retrieval engine: `find_solution` -/

/-- The trigger-to-category dict of `_direct_keyword_match`, in its
declaration (iteration) order. -/
def keywordTable : List (String × String) :=
  [("disease", "diseases"), ("diseased", "diseases"), ("sick", "diseases"),
   ("infection", "diseases"), ("fungus", "diseases"), ("blight", "diseases"),
   ("rot", "diseases"),
   ("pest", "pests"), ("insect", "pests"), ("bug", "pests"),
   ("aphid", "pests"), ("worm", "pests"),
   ("fertilizer", "fertilizers"), ("manure", "fertilizers"),
   ("compost", "fertilizers"),
   ("water", "watering"), ("watering", "watering"), ("irrigation", "watering"),
   ("plant", "planting"), ("seed", "planting"), ("sow", "planting"),
   ("maize", "planting"), ("corn", "planting")]

/-- The scan of `_direct_keyword_match`: the first trigger (in table order)
contained in the query whose category has items returns that category's
first item with confidence 0.8; a trigger whose category is empty does not
stop the scan. -/
def directLoop (kb : KB) (q : List Char) : List (String × String) → Option MLRes
  | [] => none
  | (kw, cat) :: rest =>
    if containsSub q kw.data then
      match kbGet kb cat with
      | [] => directLoop kb q rest
      | it :: _ => some ⟨cat, it, 4/5⟩
    else directLoop kb q rest

/-- `_direct_keyword_match`. -/
def directKeywordMatch (kb : KB) (q : List Char) : Option MLRes :=
  directLoop kb q keywordTable

/-- The flattening of the knowledge base visited by the nested loops of
`_ml_similarity_match`: categories in dict order, items in list order. -/
def flattenKB (kb : KB) : List (String × KItem) :=
  kb.flatMap fun p => p.2.map fun it => (p.1, it)

/-- The accumulator loop of `_ml_similarity_match`.  `simE it` is the
oracle for `cosine_similarity(query_vector, item_vector)[0][0]`; an
exception anywhere in the loop is caught by the surrounding
`try/except`, which returns `None`. -/
def mlLoop (simE : KItem → Except Unit ℚ) :
    List (String × KItem) → Option MLRes → ℚ → Option MLRes
  | [], best, _ => best
  | (c, it) :: rest, best, bestScore =>
    match simE it with
    | .error _ => none
    | .ok s =>
      if s > bestScore ∧ s > 1/10 then
        mlLoop simE rest (some ⟨c, it, s⟩) s
      else
        mlLoop simE rest best bestScore

/-- `_ml_similarity_match`.  `qv` is the oracle for
`self.vectorizer.transform([query])`, which raises (`.error`) when the
vectorizer was never fit; the `except` clause turns that into `None`. -/
def mlSimilarityMatch (qv : Except Unit Unit) (simE : KItem → Except Unit ℚ)
    (kb : KB) : Option MLRes :=
  match qv with
  | .error _ => none
  | .ok _ => mlLoop simE (flattenKB kb) none 0

/-- `find_solution`: normalize the query (`lower().strip()`), try the
direct keyword stage, then the similarity stage. -/
def findSolution (kb : KB) (qv : Except Unit Unit)
    (simE : KItem → Except Unit ℚ) (query : List Char) : Option MLRes :=
  match directKeywordMatch kb (pyStrip (lowerL query)) with
  | some r => some r
  | none => mlSimilarityMatch qv simE kb

/-! ## Advice text generator: `generate_advice_text`

Random choices are modelled by two seed parameters: `seedN` determines the
result of `random.randint(1000, 9999)` and `seedC` the result of
`random.choice(...)`.  Both modelled functions hit every value the Python
ones can produce and only those. -/

/-- Model of `random.randint(1000, 9999)`: an arbitrary value in
`[1000, 9999]`, selected by the seed. -/
def pyRandint1000to9999 (seedN : Nat) : Nat := 1000 + seedN % 9000

/-- Model of `random.choice(l)` for non-empty `l`: an arbitrary element,
selected by the seed. -/
def pyChoice (seedC : Nat) (l : List String) : String :=
  l.getD (seedC % l.length) ""

/-- Membership test `any(word in query_lower for word in words)`. -/
def matchesAny (q : List Char) (words : List String) : Bool :=
  words.any fun w => containsSub q w.data

/-- Keyword set of the disease branch of `generate_advice_text`. -/
def diseaseWords : List String :=
  ["disease", "diseased", "sick", "infection", "fungus", "blight", "rot", "zifo"]

/-- Keyword set of the pest branch. -/
def pestWords : List String :=
  ["pest", "insect", "bug", "aphid", "worm", "nambuzane"]

/-- Keyword set of the watering branch. -/
def wateringWords : List String := ["water", "watering", "nisela"]

/-- Keyword set of the fertilizer branch. -/
def fertilizerWords : List String :=
  ["fertilizer", "manure", "compost", "umanyolo"]

/-- Keyword set of the planting branch. -/
def plantingWords : List String := ["plant", "seed", "sow", "imbewu"]

/-- Keyword set of the weather branch. -/
def weatherWords : List String := ["weather", "rain", "sun", "isimo sezulu"]

/-- Keyword set of the soil branch. -/
def soilWords : List String := ["soil", "ground", "earth", "umhlaba"]

/-- `treatments` list of the disease branch. -/
def diseaseTreatments : List String :=
  ["Remove affected leaves and improve air circulation",
   "Apply copper-based fungicide spray",
   "Use organic neem oil solution",
   "Ensure proper plant spacing to reduce humidity"]

/-- `controls` list of the pest branch. -/
def pestControls : List String :=
  ["Use soapy water spray to remove pests",
   "Introduce beneficial ladybugs to control aphids",
   "Apply diatomaceous earth around plants",
   "Use row covers to protect young plants"]

/-- `watering_tips` list of the watering branch. -/
def wateringTipsList : List String :=
  ["Water deeply but infrequently to encourage deep roots",
   "Water early morning to reduce evaporation",
   "Check soil moisture 2 inches deep before watering",
   "Use drip irrigation for consistent moisture"]

/-- `fertilizer_advice` list of the fertilizer branch. -/
def fertilizerAdviceList : List String :=
  ["Use balanced NPK fertilizer during growing season",
   "Apply organic compost around plant bases",
   "Test soil pH before fertilizing",
   "Use slow-release fertilizers for steady nutrition"]

/-- `planting_tips` list of the planting branch. -/
def plantingTipsList : List String :=
  ["Plant during correct season for best germination",
   "Ensure proper seed-to-soil contact",
   "Space plants according to variety requirements",
   "Keep soil consistently moist until germination"]

/-- `weather_advice` list of the weather branch. -/
def weatherAdviceList : List String :=
  ["Monitor weather forecasts for planting decisions",
   "Protect crops from frost using covers",
   "Prepare drainage for heavy rain periods",
   "Use windbreaks in exposed areas"]

/-- `soil_tips` list of the soil branch. -/
def soilTipsList : List String :=
  ["Test soil pH regularly for optimal fertility",
   "Add organic matter to improve soil structure",
   "Practice crop rotation to maintain soil health",
   "Use cover crops to prevent erosion"]

/-- `general_advice` list of the final branch. -/
def generalAdviceList : List String :=
  ["Practice sustainable farming methods",
   "Monitor crops regularly for early problem detection",
   "Maintain soil health through organic practices",
   "Seek local extension services for specific guidance",
   "Keep detailed farming records for better planning",
   "Use integrated pest management approaches"]

/-- `generate_advice_text`: lowercase the query, draw a tracking number,
then walk the fixed `if/elif` priority chain (disease, pest, watering,
fertilizer, planting, weather, soil, else general) and emit the category's
sentence with a randomly chosen variant. -/
def generateAdviceText (seedN seedC : Nat) (query : List Char) : String :=
  let ql := lowerL query
  let n := pyRandint1000to9999 seedN
  if matchesAny ql diseaseWords then
    "Advice #" ++ toString n ++ ": For plant diseases, " ++
      pyChoice seedC diseaseTreatments ++
      ". Monitor regularly and consult extension services if condition worsens."
  else if matchesAny ql pestWords then
    "Advice #" ++ toString n ++ ": For pest control, " ++
      pyChoice seedC pestControls ++
      ". Regular monitoring is essential for effective management."
  else if matchesAny ql wateringWords then
    "Advice #" ++ toString n ++ ": For watering, " ++
      pyChoice seedC wateringTipsList ++
      ". Proper watering prevents both drought stress and root rot."
  else if matchesAny ql fertilizerWords then
    "Advice #" ++ toString n ++ ": For fertilization, " ++
      pyChoice seedC fertilizerAdviceList ++
      ". Regular soil testing ensures optimal nutrient balance."
  else if matchesAny ql plantingWords then
    "Advice #" ++ toString n ++ ": For planting, " ++
      pyChoice seedC plantingTipsList ++
      ". Proper planting techniques maximize crop success."
  else if matchesAny ql weatherWords then
    "Advice #" ++ toString n ++ ": For weather considerations, " ++
      pyChoice seedC weatherAdviceList ++
      ". Weather adaptation improves crop resilience."
  else if matchesAny ql soilWords then
    "Advice #" ++ toString n ++ ": For soil management, " ++
      pyChoice seedC soilTipsList ++
      ". Healthy soil is the foundation of successful farming."
  else
    "Advice #" ++ toString n ++ ": " ++
      pyChoice seedC generalAdviceList ++
      ". Consistent good practices lead to better farming outcomes."

/-! Specification-side description of the generator's output, used to state
that each generated sentence belongs to the category implied by the
query's keywords. -/

/-- The eight advice categories of `generate_advice_text`. -/
inductive AdviceCat
  | disease | pest | watering | fertilizer | planting | weather | soil | general
  deriving Repr, DecidableEq

/-- The category implied by the query's keywords under the generator's
fixed priority order. -/
def impliedCategory (query : List Char) : AdviceCat :=
  let ql := lowerL query
  if matchesAny ql diseaseWords then .disease
  else if matchesAny ql pestWords then .pest
  else if matchesAny ql wateringWords then .watering
  else if matchesAny ql fertilizerWords then .fertilizer
  else if matchesAny ql plantingWords then .planting
  else if matchesAny ql weatherWords then .weather
  else if matchesAny ql soilWords then .soil
  else .general

/-- The pool of sentence variants of each category. -/
def adviceVariants : AdviceCat → List String
  | .disease => diseaseTreatments
  | .pest => pestControls
  | .watering => wateringTipsList
  | .fertilizer => fertilizerAdviceList
  | .planting => plantingTipsList
  | .weather => weatherAdviceList
  | .soil => soilTipsList
  | .general => generalAdviceList

/-- The fixed text between the tracking number and the variant, per
category. -/
def catLead : AdviceCat → String
  | .disease => ": For plant diseases, "
  | .pest => ": For pest control, "
  | .watering => ": For watering, "
  | .fertilizer => ": For fertilization, "
  | .planting => ": For planting, "
  | .weather => ": For weather considerations, "
  | .soil => ": For soil management, "
  | .general => ": "

/-- The fixed closing text after the variant, per category. -/
def catTail : AdviceCat → String
  | .disease => ". Monitor regularly and consult extension services if condition worsens."
  | .pest => ". Regular monitoring is essential for effective management."
  | .watering => ". Proper watering prevents both drought stress and root rot."
  | .fertilizer => ". Regular soil testing ensures optimal nutrient balance."
  | .planting => ". Proper planting techniques maximize crop success."
  | .weather => ". Weather adaptation improves crop resilience."
  | .soil => ". Healthy soil is the foundation of successful farming."
  | .general => ". Consistent good practices lead to better farming outcomes."

/-- The shape of every sentence `generate_advice_text` can emit for a
given category: tracking number, category lead, variant, category tail. -/
def adviceSentence (n : Nat) (c : AdviceCat) (t : String) : String :=
  "Advice #" ++ toString n ++ catLead c ++ t ++ catTail c

/-! ## Advice composition: `VoiceRecognition._generate_ml_advice` -/

/-- `', '.join(l)`. -/
def joinComma (l : List String) : String := String.intercalate ", " l

/-- ASCII single-quote character, used by Python `str(list)`. -/
def quoteCh : String := String.singleton (Char.ofNat 39)

/-- Python `str(...)` of a list of strings, as interpolated by the planting
template `f"... {solution.get('tips', [...])}."`. -/
def pyStrList (l : List String) : String :=
  "[" ++ String.intercalate ", " (l.map fun s => quoteCh ++ s ++ quoteCh) ++ "]"

/-- `_generate_ml_advice`: translate the query to English, ask the
retrieval engine for a solution, and either render a category-specific
template from the matched item's fields or fall back to
`generate_advice_text`.  `translate` is the translation adapter oracle
`(text, source_lang, target_lang) -> text`. -/
def generateMlAdvice (translate : String → String → String → String)
    (qv : Except Unit Unit) (simE : KItem → Except Unit ℚ)
    (seedN seedC : Nat) (kb : KB) (zuluText : String) : String :=
  let english := translate zuluText "zu" "en"
  match findSolution kb qv simE english.data with
  | some r =>
    let sol := r.solution
    if r.category = "diseases" then
      "For " ++ sol.name.getD "plant disease" ++ ": " ++
        joinComma (sol.solutions.getD ["Consult agricultural expert"]) ++
        ". Symptoms include: " ++
        joinComma (sol.symptoms.getD ["various signs"]) ++ "."
    else if r.category = "pests" then
      "For " ++ sol.name.getD "pest problem" ++ ": " ++
        joinComma (sol.solutions.getD ["Use appropriate pest control"]) ++
        ". Look for: " ++
        joinComma (sol.symptoms.getD ["pest signs"]) ++ "."
    else if r.category = "fertilizers" then
      "For fertilization: " ++ sol.name.getD "fertilizer" ++ " - " ++
        joinComma (sol.usage.getD ["Apply as directed"]) ++
        ". Benefits: " ++
        joinComma (sol.benefits.getD ["improved plant health"]) ++ "."
    else if r.category = "watering" then
      "Watering guidance: " ++ sol.advice.getD "Water appropriately" ++
        ". Tips: " ++
        joinComma (sol.tips.getD ["monitor soil moisture"]) ++ "."
    else if r.category = "planting" then
      "Planting advice for " ++ sol.crop.getD "crops" ++ ": Plant in " ++
        sol.season.getD "appropriate season" ++ ". Spacing: " ++
        sol.spacing.getD "follow guidelines" ++ ". " ++
        pyStrList (sol.tips.getD ["Follow best practices"]) ++ "."
    else
      generateAdviceText seedN seedC english.data
  | none => generateAdviceText seedN seedC english.data

/-! ## Pipeline orchestrator: `VoiceRecognition.process_audio`

The pipeline is modelled from the point where the base64 payload has been
decoded: `audioData` is the decoded byte list.  Besides the result record
it returns the ordered list of stage invocations, so that claims about
which adapters run can be stated.  Timing, logging and the temporary-file
plumbing carry no decision logic and are omitted. -/

/-- The adapter and randomness oracles consumed by one pipeline run. -/
structure Adapters where
  transcribe : List Nat → String
  translate : String → String → String → String
  qv : Except Unit Unit
  simE : KItem → Except Unit ℚ
  seedN : Nat
  seedC : Nat
  synth : String → String → Except Unit (Option (List Nat))

/-- The result dict of `process_audio` (audio payloads kept as raw bytes;
the base64 re-encoding is external). -/
structure PipeResult where
  success : Bool
  error : Option String := none
  transcript : String
  translation : String
  advice : String
  adviceZulu : String
  audio : Option (List Nat) := none
  englishAudio : Option (List Nat) := none
  deriving Repr, DecidableEq

/-- Fallback transcript (and translation) substituted when no speech is
detected. -/
def fallbackTranscript : String :=
  "Speech not detected. Please try speaking louder and clearer."

/-- Fallback advice substituted when no speech is detected. -/
def fallbackAdvice : String :=
  "Please speak clearly and ensure your microphone is working properly."

/-- Fallback isiZulu advice substituted when no speech is detected. -/
def fallbackAdviceZulu : String :=
  "Sicela ukhulume ngokusobala futhi uqinisekise ukuthi imakrofoni yakho iyasebenza kahle."

/-- Advice text of the generic failure result. -/
def failureAdvice : String :=
  "Please try recording again. If the problem persists, contact support."

/-- isiZulu advice text of the generic failure result. -/
def failureAdviceZulu : String :=
  "Sicela uzame ukurekhoda futhi. Uma inkinga iqhubeka, xhumana nosizo."

/-- Error message produced when the decoded payload is under 100 bytes:
the raised `ValueError` text wrapped by the outer `except` clause. -/
def tooSmallError : String :=
  "Failed to process audio: Audio data too small, likely corrupted"

/-- Step 7 of `process_audio`: synthesize the isiZulu and English audio
variants; a synthesis exception is caught and the run continues without
the remaining audio. -/
def synthStep (A : Adapters) (transcript translation advice adviceZulu : String)
    (calls : List String) : PipeResult × List String :=
  match A.synth adviceZulu "zu-ZA" with
  | .error _ =>
    (⟨true, none, transcript, translation, advice, adviceZulu, none, none⟩,
      calls ++ ["synthesize"])
  | .ok a =>
    match A.synth advice "en-US" with
    | .error _ =>
      (⟨true, none, transcript, translation, advice, adviceZulu, a, none⟩,
        calls ++ ["synthesize", "synthesize"])
    | .ok e =>
      (⟨true, none, transcript, translation, advice, adviceZulu, a, e⟩,
        calls ++ ["synthesize", "synthesize"])

/-- `process_audio` on the decoded payload.  A payload under 100 bytes
raises, which the outer `except` turns into the failure result before any
adapter runs.  A blank transcript substitutes the fixed fallback texts and
jumps straight to synthesis.  Otherwise the transcript is translated, the
advice composed (on the lowercased transcript) and translated back, then
both audio variants are synthesized. -/
def processAudio (A : Adapters) (kb : KB) (audioData : List Nat) :
    PipeResult × List String :=
  if audioData.length < 100 then
    (⟨false, some tooSmallError, "", "", failureAdvice, failureAdviceZulu,
       none, none⟩, [])
  else
    let transcript := A.transcribe audioData
    if isBlank transcript then
      synthStep A fallbackTranscript fallbackTranscript fallbackAdvice
        fallbackAdviceZulu ["transcribe"]
    else
      let translation := A.translate transcript "zu" "en"
      let advice := generateMlAdvice A.translate A.qv A.simE A.seedN A.seedC kb
        (String.mk (lowerL transcript.data))
      let adviceZulu := A.translate advice "en" "zu"
      synthStep A transcript translation advice adviceZulu
        ["transcribe", "translate", "translate", "retrieve", "translate"]

/-! ## Transcription: dual-language choice in `transcribe_audio`

The two recognition attempts (English, then isiZulu) yield a transcript
and a confidence each; a failed attempt yields `("", 0.0)`.  The choice
between them (`speech_service.py` lines 109-121) is pure and modelled
here.  The subsequent small-file check only maps an empty choice to the
empty string again and cannot change the value. -/

/-- The transcript-choice logic of `transcribe_audio`: English wins when
strictly more confident and non-empty; otherwise a non-empty isiZulu
transcript; otherwise a non-empty English transcript; otherwise empty. -/
def chooseTranscript (englishTranscript : String) (englishConfidence : ℚ)
    (zuluTranscript : String) (zuluConfidence : ℚ) : String :=
  if englishConfidence > zuluConfidence ∧ englishTranscript ≠ "" then
    englishTranscript
  else if zuluTranscript ≠ "" then zuluTranscript
  else if englishTranscript ≠ "" then englishTranscript
  else ""

/-! ## Helper lemmas about substring scanning and stripping -/

theorem isPrefixL_iff (p s : List Char) :
    isPrefixL p s = true ↔ ∃ b, s = p ++ b := by
  induction p generalizing s with
  | nil => simp [isPrefixL]
  | cons a as ih =>
    cases s with
    | nil => simp [isPrefixL]
    | cons c cs =>
      rw [show isPrefixL (a :: as) (c :: cs) = (a == c && isPrefixL as cs) from rfl,
        Bool.and_eq_true, beq_iff_eq, ih]
      constructor
      · rintro ⟨rfl, b, rfl⟩; exact ⟨b, rfl⟩
      · rintro ⟨b, hb⟩
        rw [List.cons_append] at hb
        simp only [List.cons.injEq] at hb
        obtain ⟨h1, h2⟩ := hb
        subst h1; subst h2
        exact ⟨rfl, b, rfl⟩

theorem containsSub_iff (s p : List Char) :
    containsSub s p = true ↔ ∃ a b, s = a ++ p ++ b := by
  induction s with
  | nil =>
    cases p with
    | nil =>
      constructor
      · intro _; exact ⟨[], [], rfl⟩
      · intro _; rfl
    | cons x xs =>
      constructor
      · intro h; simp [containsSub] at h
      · rintro ⟨a, b, h⟩; simp at h
  | cons c cs ih =>
    rw [show containsSub (c :: cs) p = (isPrefixL p (c :: cs) || containsSub cs p) from rfl,
      Bool.or_eq_true, isPrefixL_iff, ih]
    constructor
    · rintro (⟨b, hb⟩ | ⟨a, b, rfl⟩)
      · exact ⟨[], b, by simpa using hb⟩
      · exact ⟨c :: a, b, rfl⟩
    · rintro ⟨a, b, h⟩
      cases a with
      | nil => exact Or.inl ⟨b, by simpa using h⟩
      | cons x a' =>
        rw [List.cons_append, List.cons_append] at h
        simp only [List.cons.injEq] at h
        exact Or.inr ⟨a', b, by rw [h.2, List.append_assoc]⟩

theorem sub_dropWhile (f : Char → Bool) (x : Char) (xs : List Char)
    (hx : f x = false) :
    ∀ a b, ∃ a2 b2,
      (a ++ (x :: xs) ++ b).dropWhile f = a2 ++ (x :: xs) ++ b2 := by
  intro a
  induction a with
  | nil =>
    intro b
    refine ⟨[], b, ?_⟩
    simp [List.dropWhile_cons, hx]
  | cons y a' ih =>
    intro b
    by_cases hy : f y = true
    · obtain ⟨a2, b2, h⟩ := ih b
      refine ⟨a2, b2, ?_⟩
      simpa [List.dropWhile_cons, hy] using h
    · refine ⟨y :: a', b, ?_⟩
      simp [List.dropWhile_cons, Bool.eq_false_iff.mpr hy]

theorem rev_split (a p b : List Char) :
    (a ++ p ++ b).reverse = b.reverse ++ p.reverse ++ a.reverse := by
  simp [List.reverse_append, List.append_assoc]

theorem sub_pyStrip (p : List Char) (hpne : p ≠ [])
    (hp : ∀ c ∈ p, Char.isWhitespace c = false) (a b : List Char) :
    ∃ a2 b2, pyStrip (a ++ p ++ b) = a2 ++ p ++ b2 := by
  obtain ⟨x, xs, rfl⟩ : ∃ x xs, p = x :: xs := by
    cases p with
    | nil => exact absurd rfl hpne
    | cons x xs => exact ⟨x, xs, rfl⟩
  obtain ⟨a2, b2, h1⟩ :=
    sub_dropWhile Char.isWhitespace x xs (hp x (List.mem_cons_self x xs)) a b
  obtain ⟨y, ys, hrev⟩ : ∃ y ys, (x :: xs).reverse = y :: ys := by
    cases hr : (x :: xs).reverse with
    | nil => exact absurd (List.reverse_eq_nil_iff.mp hr) (by simp)
    | cons y ys => exact ⟨y, ys, rfl⟩
  have hy : Char.isWhitespace y = false := by
    have hmem : y ∈ (x :: xs).reverse := by rw [hrev]; exact List.mem_cons_self y ys
    exact hp y (List.mem_reverse.mp hmem)
  obtain ⟨a3, b3, h3⟩ := sub_dropWhile Char.isWhitespace y ys hy b2.reverse a2.reverse
  refine ⟨b3.reverse, a3.reverse, ?_⟩
  simp only [pyStrip, trimLeft, trimRight]
  rw [h1, rev_split, hrev, h3, rev_split]
  rw [show (y :: ys).reverse = x :: xs from by rw [← hrev, List.reverse_reverse]]

/-! ## Helper lemmas about the retrieval loops -/

theorem mlLoop_keep_of_all_le (sim : KItem → ℚ) :
    ∀ (l : List (String × KItem)) (b : Option MLRes) (s : ℚ),
      (∀ e ∈ l, sim e.2 ≤ 1/10) →
      mlLoop (fun it => .ok (sim it)) l b s = b := by
  intro l
  induction l with
  | nil => intro b s _; rfl
  | cons hd rest ih =>
    intro b s h
    obtain ⟨c, it⟩ := hd
    have h1 : sim it ≤ 1/10 := h (c, it) (List.mem_cons_self _ _)
    have hng : ¬(sim it > s ∧ sim it > 1/10) := by
      rintro ⟨_, h3⟩
      exact absurd h1 (not_le.mpr h3)
    simp only [mlLoop, hng, if_false]
    exact ih b s (fun e he => h e (List.mem_cons_of_mem _ he))

theorem mlLoop_some_charact (sim : KItem → ℚ) :
    ∀ (l : List (String × KItem)) (b : Option MLRes) (s : ℚ) (r : MLRes),
      ((b = none ∧ s = 0) ∨ (∃ rb, b = some rb ∧ s = rb.confidence ∧ 1/10 < s)) →
      mlLoop (fun it => .ok (sim it)) l b s = some r →
      (b = some r ∧ ∀ e ∈ l, sim e.2 ≤ s) ∨
      (∃ pre e post, l = pre ++ e :: post ∧ r = ⟨e.1, e.2, sim e.2⟩ ∧
        1/10 < sim e.2 ∧ s < sim e.2 ∧
        (∀ x ∈ pre, sim x.2 < sim e.2) ∧ (∀ x ∈ post, sim x.2 ≤ sim e.2)) := by
  intro l
  induction l with
  | nil =>
    intro b s r _ hrun
    exact Or.inl ⟨hrun, by intro e he; cases he⟩
  | cons hd rest ih =>
    intro b s r hinv hrun
    obtain ⟨c, it⟩ := hd
    by_cases hguard : sim it > s ∧ sim it > 1/10
    · have hrun' : mlLoop (fun it => .ok (sim it)) rest (some ⟨c, it, sim it⟩) (sim it)
          = some r := by
        simpa only [mlLoop, hguard, if_true] using hrun
      have hinv' : ((some ⟨c, it, sim it⟩ : Option MLRes) = none ∧ sim it = 0) ∨
          (∃ rb, (some ⟨c, it, sim it⟩ : Option MLRes) = some rb ∧
            sim it = rb.confidence ∧ 1/10 < sim it) :=
        Or.inr ⟨⟨c, it, sim it⟩, rfl, rfl, hguard.2⟩
      rcases ih (some ⟨c, it, sim it⟩) (sim it) r hinv' hrun' with
        ⟨heq, hall⟩ | ⟨pre, e, post, hsplit, hre, h10, hs, hpre, hpost⟩
      · have hr : (⟨c, it, sim it⟩ : MLRes) = r := Option.some.inj heq
        subst hr
        refine Or.inr ⟨[], (c, it), rest, rfl, rfl, hguard.2, hguard.1, ?_⟩
        constructor
        · intro x hx; cases hx
        · exact hall
      · refine Or.inr ⟨(c, it) :: pre, e, post, by rw [hsplit]; rfl, hre, h10,
          lt_trans hguard.1 hs, ?_, hpost⟩
        intro x hx
        rcases List.mem_cons.mp hx with rfl | hx'
        · exact hs
        · exact hpre x hx'
    · have hrun' : mlLoop (fun it => .ok (sim it)) rest b s = some r := by
        simpa only [mlLoop, hguard, if_false] using hrun
      rcases ih b s r hinv hrun' with
        ⟨heq, hall⟩ | ⟨pre, e, post, hsplit, hre, h10, hs, hpre, hpost⟩
      · refine Or.inl ⟨heq, ?_⟩
        intro x hx
        rcases List.mem_cons.mp hx with rfl | hx'
        · rcases hinv with ⟨hbnone, _⟩ | ⟨rb, _, _, h110⟩
          · rw [hbnone] at heq; simp at heq
          · by_contra hnle
            have hlt : s < sim it := not_le.mp hnle
            exact hguard ⟨hlt, lt_trans h110 hlt⟩
        · exact hall x hx'
      · refine Or.inr ⟨(c, it) :: pre, e, post, by rw [hsplit]; rfl, hre, h10, hs, ?_, hpost⟩
        intro x hx
        rcases List.mem_cons.mp hx with rfl | hx'
        · rcases not_and_or.mp hguard with hns | hn10
          · exact lt_of_le_of_lt (not_lt.mp hns) hs
          · exact lt_of_le_of_lt (not_lt.mp hn10) h10
        · exact hpre x hx'

theorem mlLoop_some_of_some (sim : KItem → ℚ) :
    ∀ (l : List (String × KItem)) (rb : MLRes) (s : ℚ),
      ∃ r, mlLoop (fun it => .ok (sim it)) l (some rb) s = some r := by
  intro l
  induction l with
  | nil => intro rb s; exact ⟨rb, rfl⟩
  | cons hd rest ih =>
    intro rb s
    obtain ⟨c, it⟩ := hd
    by_cases hguard : sim it > s ∧ sim it > 1/10
    · obtain ⟨r, hr⟩ := ih ⟨c, it, sim it⟩ (sim it)
      exact ⟨r, by simpa only [mlLoop, hguard, if_true] using hr⟩
    · obtain ⟨r, hr⟩ := ih rb s
      exact ⟨r, by simpa only [mlLoop, hguard, if_false] using hr⟩

theorem mlLoop_exists_some (sim : KItem → ℚ) :
    ∀ l : List (String × KItem),
      (∃ e ∈ l, sim e.2 > 1/10) →
      ∃ r, mlLoop (fun it => .ok (sim it)) l none 0 = some r := by
  intro l
  induction l with
  | nil => rintro ⟨e, he, _⟩; cases he
  | cons hd rest ih =>
    rintro ⟨e, he, hgt⟩
    obtain ⟨c, it⟩ := hd
    by_cases hguard : sim it > 0 ∧ sim it > 1/10
    · obtain ⟨r, hr⟩ := mlLoop_some_of_some sim rest ⟨c, it, sim it⟩ (sim it)
      exact ⟨r, by simpa only [mlLoop, hguard, if_true] using hr⟩
    · have hit : ¬ sim it > 1/10 := by
        intro hgt10
        exact hguard ⟨lt_trans (by norm_num) hgt10, hgt10⟩
      have he' : e ∈ rest := by
        rcases List.mem_cons.mp he with rfl | h
        · exact absurd hgt hit
        · exact h
      obtain ⟨r, hr⟩ := ih ⟨e, he', hgt⟩
      exact ⟨r, by simpa only [mlLoop, hguard, if_false] using hr⟩

theorem mlLoop_none_of_error (simE : KItem → Except Unit ℚ) :
    ∀ (l : List (String × KItem)) (b : Option MLRes) (s : ℚ),
      (∃ e ∈ l, simE e.2 = .error ()) →
      mlLoop simE l b s = none := by
  intro l
  induction l with
  | nil => rintro b s ⟨e, he, _⟩; cases he
  | cons hd rest ih =>
    rintro b s ⟨e, he, herr⟩
    obtain ⟨c, it⟩ := hd
    rcases hcase : simE it with u | v
    · simp [mlLoop, hcase]
    · have he' : e ∈ rest := by
        rcases List.mem_cons.mp he with rfl | h
        · have herr2 : simE it = Except.error () := herr
          rw [hcase] at herr2
          cases herr2
        · exact h
      by_cases hguard : v > s ∧ v > 1/10
      · have hres := ih (some ⟨c, it, v⟩) v ⟨e, he', herr⟩
        simpa only [mlLoop, hcase, hguard, if_true] using hres
      · have hres := ih b s ⟨e, he', herr⟩
        simpa only [mlLoop, hcase, hguard, if_false] using hres

theorem directLoop_none (kb : KB) (q : List Char) :
    ∀ table : List (String × String),
      (∀ p ∈ table, containsSub q p.1.data = true → kbGet kb p.2 = []) →
      directLoop kb q table = none := by
  intro table
  induction table with
  | nil => intro _; rfl
  | cons hd rest ih =>
    intro h
    obtain ⟨kw, cat⟩ := hd
    have hrest := ih (fun p hp => h p (List.mem_cons_of_mem _ hp))
    by_cases hc : containsSub q kw.data = true
    · have hemp := h (kw, cat) (List.mem_cons_self _ _) hc
      simp only [directLoop, hc, if_true, hemp]
      exact hrest
    · simp only [directLoop, hc, if_false]
      exact hrest

theorem direct_disease (fd fp : List KItem) (q : List Char)
    (h : containsSub q "disease".data = true) :
    ∃ it, directKeywordMatch (loadKnowledgeBase fd fp) q = some ⟨"diseases", it, 4/5⟩ := by
  have hkb : kbGet (loadKnowledgeBase fd fp) "diseases" = fd ++ [leafBlight, rootRot] := by
    simp [kbGet, loadKnowledgeBase, List.find?]
  cases hfd : fd ++ [leafBlight, rootRot] with
  | nil => simp at hfd
  | cons it rest' =>
    exact ⟨it, by simp [directKeywordMatch, keywordTable, directLoop, h, hkb, hfd]⟩

/-! ## Helper lemmas about strings and random choices -/

theorem append_ne_empty_left (a b : String) (h : 0 < a.length) : a ++ b ≠ "" := by
  intro he
  have hl := congrArg String.length he
  rw [String.length_append, String.length_empty] at hl
  omega

theorem pyRandint_bounds (seedN : Nat) :
    1000 ≤ pyRandint1000to9999 seedN ∧ pyRandint1000to9999 seedN ≤ 9999 := by
  have hm : seedN % 9000 < 9000 := Nat.mod_lt _ (by norm_num)
  unfold pyRandint1000to9999
  omega

theorem pyChoice_mem (seedC : Nat) (l : List String) (hne : l ≠ []) :
    pyChoice seedC l ∈ l := by
  have hpos : 0 < l.length := List.length_pos.mpr hne
  have hlt : seedC % l.length < l.length := Nat.mod_lt _ hpos
  rw [pyChoice, List.getD_eq_getElem?_getD, List.getElem?_eq_getElem hlt]
  exact List.getElem_mem hlt

/-! ## C1: disease queries hit the direct stage -/

/-- C1: for every query containing the substring "disease" in any letter
case, `find_solution` returns a match whose category is `"diseases"` and
whose confidence is exactly 0.8, for any contents of the optional data
file and any behaviour of the similarity oracles. -/
theorem c1_disease_query_matches (fd fp : List KItem) (qv : Except Unit Unit)
    (simE : KItem → Except Unit ℚ) (q : List Char)
    (h : containsSub (lowerL q) "disease".data = true) :
    ∃ r, findSolution (loadKnowledgeBase fd fp) qv simE q = some r ∧
      r.category = "diseases" ∧ r.confidence = 4/5 := by
  obtain ⟨a, b, hab⟩ := (containsSub_iff _ _).mp h
  obtain ⟨a2, b2, h2⟩ := sub_pyStrip "disease".data (by decide) (by decide) a b
  have hc : containsSub (pyStrip (lowerL q)) "disease".data = true := by
    apply (containsSub_iff _ _).mpr
    exact ⟨a2, b2, by rw [hab, h2]⟩
  obtain ⟨it, hdir⟩ := direct_disease fd fp (pyStrip (lowerL q)) hc
  refine ⟨⟨"diseases", it, 4/5⟩, ?_, rfl, rfl⟩
  unfold findSolution
  rw [hdir]

/-- Witness for C1 at the concrete query "My crops have a DISEASE". -/
theorem c1_witness :
    ∃ r, findSolution (loadKnowledgeBase [] []) (.ok ())
        (fun _ => .ok 0) "My crops have a DISEASE".data = some r ∧
      r.category = "diseases" ∧ r.confidence = 4/5 :=
  c1_disease_query_matches [] [] (.ok ()) (fun _ => .ok 0)
    "My crops have a DISEASE".data (by decide)

/-! ## C2: the similarity stage picks the first best item above 0.1 -/

/-- C2: when no direct-keyword trigger produces a match, `find_solution`
reports no match if every item scores at most 0.1; any match it reports is
the first item (in category-then-insertion order) attaining the highest
similarity, which is strictly above 0.1; and a match exists whenever some
item scores strictly above 0.1. -/
theorem c2_similarity_selection (kb : KB) (sim : KItem → ℚ) (q : List Char)
    (hdir : directKeywordMatch kb (pyStrip (lowerL q)) = none) :
    ((∀ e ∈ flattenKB kb, sim e.2 ≤ 1/10) →
      findSolution kb (.ok ()) (fun it => .ok (sim it)) q = none) ∧
    (∀ r, findSolution kb (.ok ()) (fun it => .ok (sim it)) q = some r →
      ∃ pre e post, flattenKB kb = pre ++ e :: post ∧
        r = ⟨e.1, e.2, sim e.2⟩ ∧ 1/10 < sim e.2 ∧
        (∀ x ∈ pre, sim x.2 < sim e.2) ∧ (∀ x ∈ post, sim x.2 ≤ sim e.2)) ∧
    ((∃ e ∈ flattenKB kb, 1/10 < sim e.2) →
      ∃ r, findSolution kb (.ok ()) (fun it => .ok (sim it)) q = some r) := by
  have hfs : findSolution kb (.ok ()) (fun it => .ok (sim it)) q
      = mlLoop (fun it => .ok (sim it)) (flattenKB kb) none 0 := by
    unfold findSolution
    rw [hdir]
    rfl
  refine ⟨?_, ?_, ?_⟩
  · intro hall
    rw [hfs]
    exact mlLoop_keep_of_all_le sim (flattenKB kb) none 0 hall
  · intro r hr
    rw [hfs] at hr
    rcases mlLoop_some_charact sim (flattenKB kb) none 0 r (Or.inl ⟨rfl, rfl⟩) hr with
      ⟨hnone, _⟩ | ⟨pre, e, post, hsplit, hre, h10, _, hpre, hpost⟩
    · simp at hnone
    · exact ⟨pre, e, post, hsplit, hre, h10, hpre, hpost⟩
  · intro hex
    rw [hfs]
    exact mlLoop_exists_some sim (flattenKB kb) hex

/-- Witness for C2: a query with no trigger and an all-zero similarity
oracle yields no match. -/
theorem c2_witness :
    findSolution (loadKnowledgeBase [] []) (.ok ())
      (fun _ => .ok 0) "qqq".data = none :=
  (c2_similarity_selection (loadKnowledgeBase [] []) (fun _ => 0) "qqq".data
    (by decide)).1 (by intro e _; norm_num)

/-! ## C4: undersized payload fails before any adapter runs -/

/-- C4: a decoded payload of fewer than 100 bytes makes the pipeline fail
with the input-error message, with no audio and no adapter invocation. -/
theorem c4_small_payload_failure (A : Adapters) (kb : KB) (audioData : List Nat)
    (h : audioData.length < 100) :
    (processAudio A kb audioData).1.success = false ∧
    (processAudio A kb audioData).1.error = some tooSmallError ∧
    (processAudio A kb audioData).1.audio = none ∧
    (processAudio A kb audioData).1.englishAudio = none ∧
    (processAudio A kb audioData).2 = [] := by
  unfold processAudio
  rw [if_pos h]
  exact ⟨rfl, rfl, rfl, rfl, rfl⟩

/-- Witness for C4 at the empty payload. -/
theorem c4_witness :
    (processAudio
        ⟨fun _ => "", fun t _ _ => t, .ok (), fun _ => .ok 0, 0, 0, fun _ _ => .ok none⟩
        (loadKnowledgeBase [] []) []).1.success = false ∧
    (processAudio
        ⟨fun _ => "", fun t _ _ => t, .ok (), fun _ => .ok 0, 0, 0, fun _ _ => .ok none⟩
        (loadKnowledgeBase [] []) []).2 = [] := by
  have h := c4_small_payload_failure
    ⟨fun _ => "", fun t _ _ => t, .ok (), fun _ => .ok 0, 0, 0, fun _ _ => .ok none⟩
    (loadKnowledgeBase [] []) [] (by norm_num)
  exact ⟨h.1, h.2.2.2.2⟩

/-! ## C3: blank transcript substitutes the fallback triple -/

/-- C3: when transcription yields a blank transcript, the pipeline
succeeds with the fixed fallback transcript, translation and advice
(source-language and translated), skips translation and retrieval, and
goes straight to synthesis — for any adapters and knowledge base. -/
theorem c3_blank_transcript_fallback (A : Adapters) (kb : KB) (audioData : List Nat)
    (hsize : 100 ≤ audioData.length)
    (hblank : isBlank (A.transcribe audioData) = true) :
    (processAudio A kb audioData).1.success = true ∧
    (processAudio A kb audioData).1.transcript = fallbackTranscript ∧
    (processAudio A kb audioData).1.translation = fallbackTranscript ∧
    (processAudio A kb audioData).1.advice = fallbackAdvice ∧
    (processAudio A kb audioData).1.adviceZulu = fallbackAdviceZulu ∧
    ((processAudio A kb audioData).2 = ["transcribe", "synthesize"] ∨
      (processAudio A kb audioData).2 = ["transcribe", "synthesize", "synthesize"]) ∧
    "translate" ∉ (processAudio A kb audioData).2 ∧
    "retrieve" ∉ (processAudio A kb audioData).2 := by
  have hlt : ¬ audioData.length < 100 := not_lt.mpr hsize
  have hpa : processAudio A kb audioData
      = synthStep A fallbackTranscript fallbackTranscript fallbackAdvice
          fallbackAdviceZulu ["transcribe"] := by
    simp only [processAudio, hlt, if_false, hblank, if_true]
  rw [hpa]
  unfold synthStep
  cases hz : A.synth fallbackAdviceZulu "zu-ZA" with
  | error u =>
    refine ⟨rfl, rfl, rfl, rfl, rfl, Or.inl rfl, ?_, ?_⟩
    · show ("translate" : String) ∉ ["transcribe", "synthesize"]
      decide
    · show ("retrieve" : String) ∉ ["transcribe", "synthesize"]
      decide
  | ok a =>
    cases he : A.synth fallbackAdvice "en-US" with
    | error u =>
      refine ⟨rfl, rfl, rfl, rfl, rfl, Or.inr rfl, ?_, ?_⟩
      · show ("translate" : String) ∉ ["transcribe", "synthesize", "synthesize"]
        decide
      · show ("retrieve" : String) ∉ ["transcribe", "synthesize", "synthesize"]
        decide
    | ok e =>
      refine ⟨rfl, rfl, rfl, rfl, rfl, Or.inr rfl, ?_, ?_⟩
      · show ("translate" : String) ∉ ["transcribe", "synthesize", "synthesize"]
        decide
      · show ("retrieve" : String) ∉ ["transcribe", "synthesize", "synthesize"]
        decide

/-- Witness for C3: a 100-byte payload whose transcription is empty. -/
theorem c3_witness :
    (processAudio
        ⟨fun _ => "", fun t _ _ => t, .ok (), fun _ => .ok 0, 0, 0, fun _ _ => .ok none⟩
        (loadKnowledgeBase [] []) (List.replicate 100 0)).1.success = true ∧
    (processAudio
        ⟨fun _ => "", fun t _ _ => t, .ok (), fun _ => .ok 0, 0, 0, fun _ _ => .ok none⟩
        (loadKnowledgeBase [] []) (List.replicate 100 0)).1.transcript
      = fallbackTranscript := by
  have h := c3_blank_transcript_fallback
    ⟨fun _ => "", fun t _ _ => t, .ok (), fun _ => .ok 0, 0, 0, fun _ _ => .ok none⟩
    (loadKnowledgeBase [] []) (List.replicate 100 0) (by simp) (by decide)
  exact ⟨h.1, h.2.1⟩

/-! ## C6: the "my tomato has root rot" scenario -/

/-- C6: on the query "my tomato has root rot" the first trigger of the
table that fires (contained in the query with a non-empty category) is
"rot" targeting "diseases"; `find_solution` returns the Leaf Blight item
with category `"diseases"` and confidence 0.8 independently of the
similarity oracles; and Leaf Blight is the first disease item whose
solutions list is non-empty. -/
theorem c6_root_rot_scenario :
    List.find? (fun p => containsSub (pyStrip (lowerL "my tomato has root rot".data)) p.1.data
        && !(kbGet (loadKnowledgeBase [] []) p.2).isEmpty) keywordTable
      = some ("rot", "diseases") ∧
    (∀ (qv : Except Unit Unit) (simE : KItem → Except Unit ℚ),
      findSolution (loadKnowledgeBase [] []) qv simE "my tomato has root rot".data
        = some ⟨"diseases", leafBlight, 4/5⟩) ∧
    List.find? (fun it => !(it.solutions.getD []).isEmpty)
        (kbGet (loadKnowledgeBase [] []) "diseases") = some leafBlight := by
  refine ⟨by decide, ?_, by decide⟩
  intro qv simE
  rfl

/-! ## C8: similarity-stage errors degrade to no-match -/

/-- C8: an error raised in the similarity stage — a failing query
vectorization or a failing per-item similarity computation — is absorbed
and `find_solution` returns no match instead of propagating it. -/
theorem c8_similarity_errors_absorbed (kb : KB) (qv : Except Unit Unit)
    (simE : KItem → Except Unit ℚ) (q : List Char)
    (hdir : directKeywordMatch kb (pyStrip (lowerL q)) = none) :
    (qv = .error () → findSolution kb qv simE q = none) ∧
    ((∃ e ∈ flattenKB kb, simE e.2 = .error ()) →
      findSolution kb qv simE q = none) := by
  constructor
  · intro hqv
    unfold findSolution
    rw [hdir, hqv]
    rfl
  · intro hex
    unfold findSolution
    rw [hdir]
    cases qv with
    | error u => rfl
    | ok u =>
      show mlLoop simE (flattenKB kb) none 0 = none
      exact mlLoop_none_of_error simE (flattenKB kb) none 0 hex

/-- Witness for C8: an always-raising similarity oracle yields no match. -/
theorem c8_witness :
    findSolution (loadKnowledgeBase [] []) (.ok ())
      (fun _ => .error ()) "qwx".data = none :=
  (c8_similarity_errors_absorbed (loadKnowledgeBase [] []) (.ok ())
    (fun _ => .error ()) "qwx".data (by decide)).2
    ⟨("diseases", leafBlight), by decide, rfl⟩

/-! ## C9: an empty-category trigger does not stop the direct scan -/

/-- C9: in the direct stage a trigger contained in the query whose
category is empty neither produces a match nor stops the scan, and when
every firing trigger has an empty category the stage reports nothing so
`find_solution` falls through to the similarity stage. -/
theorem c9_empty_category_skip (kb : KB) (q0 : List Char) (qv : Except Unit Unit)
    (simE : KItem → Except Unit ℚ) (kw cat : String) (rest : List (String × String))
    (hkw : containsSub (pyStrip (lowerL q0)) kw.data = true)
    (hemp : kbGet kb cat = []) :
    directLoop kb (pyStrip (lowerL q0)) ((kw, cat) :: rest)
      = directLoop kb (pyStrip (lowerL q0)) rest ∧
    ((∀ p ∈ keywordTable, containsSub (pyStrip (lowerL q0)) p.1.data = true →
        kbGet kb p.2 = []) →
      directKeywordMatch kb (pyStrip (lowerL q0)) = none ∧
      findSolution kb qv simE q0 = mlSimilarityMatch qv simE kb) := by
  constructor
  · simp only [directLoop, hkw, if_true, hemp]
  · intro hall
    have hnone : directKeywordMatch kb (pyStrip (lowerL q0)) = none :=
      directLoop_none kb (pyStrip (lowerL q0)) keywordTable hall
    refine ⟨hnone, ?_⟩
    unfold findSolution
    rw [hnone]

/-- Witness for C9: a knowledge base whose diseases category is empty and
the query "rot problem". -/
theorem c9_witness :
    directLoop [("diseases", [])] (pyStrip (lowerL "rot problem".data))
        (("rot", "diseases") :: []) =
      directLoop [("diseases", [])] (pyStrip (lowerL "rot problem".data)) [] ∧
    findSolution [("diseases", [])] (.ok ()) (fun _ => .ok 0) "rot problem".data
      = mlSimilarityMatch (.ok ()) (fun _ => .ok 0) [("diseases", [])] := by
  have h := c9_empty_category_skip [("diseases", [])] "rot problem".data (.ok ())
    (fun _ => .ok 0) "rot" "diseases" [] (by decide) (by decide)
  exact ⟨h.1, (h.2 (by decide)).2⟩

/-! ## Helper lemmas about the advice generator -/

theorem generateAdviceText_eq (seedN seedC : Nat) (q : List Char) :
    generateAdviceText seedN seedC q
      = adviceSentence (pyRandint1000to9999 seedN) (impliedCategory q)
          (pyChoice seedC (adviceVariants (impliedCategory q))) := by
  simp only [generateAdviceText, impliedCategory]
  by_cases h1 : matchesAny (lowerL q) diseaseWords = true
  · simp only [h1, if_true]; rfl
  simp only [h1, if_false]
  by_cases h2 : matchesAny (lowerL q) pestWords = true
  · simp only [h2, if_true]; rfl
  simp only [h2, if_false]
  by_cases h3 : matchesAny (lowerL q) wateringWords = true
  · simp only [h3, if_true]; rfl
  simp only [h3, if_false]
  by_cases h4 : matchesAny (lowerL q) fertilizerWords = true
  · simp only [h4, if_true]; rfl
  simp only [h4, if_false]
  by_cases h5 : matchesAny (lowerL q) plantingWords = true
  · simp only [h5, if_true]; rfl
  simp only [h5, if_false]
  by_cases h6 : matchesAny (lowerL q) weatherWords = true
  · simp only [h6, if_true]; rfl
  simp only [h6, if_false]
  by_cases h7 : matchesAny (lowerL q) soilWords = true
  · simp only [h7, if_true]; rfl
  simp only [h7, if_false]
  rfl

theorem generateAdviceText_ne_empty (seedN seedC : Nat) (q : List Char) :
    generateAdviceText seedN seedC q ≠ "" := by
  rw [generateAdviceText_eq seedN seedC q]
  unfold adviceSentence
  apply append_ne_empty_left
  repeat rw [String.length_append]
  have h8 : ("Advice #" : String).length = 8 := rfl
  omega

/-! ## C5: the advice generator's contract -/

/-- C5: `generate_advice_text` is total (this model is a plain function),
always yields non-empty text that embeds a 4-digit tracking number, and
the emitted sentence is the one of the category implied by the query's
keywords under the fixed priority order (disease, pest, watering,
fertilizer, planting, weather, soil, else general), with its variant drawn
from that category's pool. -/
theorem c5_generate_advice_contract (seedN seedC : Nat) (q : List Char) :
    generateAdviceText seedN seedC q ≠ "" ∧
    (∃ n, 1000 ≤ n ∧ n ≤ 9999 ∧
      ∃ a b, (generateAdviceText seedN seedC q).data
        = a ++ (toString n).data ++ b) ∧
    (∃ t, t ∈ adviceVariants (impliedCategory q) ∧
      generateAdviceText seedN seedC q
        = adviceSentence (pyRandint1000to9999 seedN) (impliedCategory q) t) := by
  have hvne : adviceVariants (impliedCategory q) ≠ [] := by
    cases impliedCategory q <;> decide
  have heq := generateAdviceText_eq seedN seedC q
  refine ⟨generateAdviceText_ne_empty seedN seedC q, ?_,
    ⟨pyChoice seedC (adviceVariants (impliedCategory q)),
      pyChoice_mem _ _ hvne, heq⟩⟩
  refine ⟨pyRandint1000to9999 seedN, (pyRandint_bounds seedN).1,
    (pyRandint_bounds seedN).2, ?_⟩
  rw [heq]
  unfold adviceSentence
  refine ⟨"Advice #".data,
    (catLead (impliedCategory q) ++
      pyChoice seedC (adviceVariants (impliedCategory q)) ++
      catTail (impliedCategory q)).data, ?_⟩
  simp [String.data_append, List.append_assoc]

/-- Witness for C5 at seed pair (0, 0) and the query "hello". -/
theorem c5_witness : generateAdviceText 0 0 "hello".data ≠ "" :=
  (c5_generate_advice_contract 0 0 "hello".data).1

/-! ## C7: advice composition -/

/-- C7: the advice composition consults the retrieval engine first; on a
diseases match it renders the diseases template with the item's field
lists joined in declared order; on no match it falls back to the advice
text generator; and the composed advice is never empty. -/
theorem c7_compose_advice (translate : String → String → String → String)
    (qv : Except Unit Unit) (simE : KItem → Except Unit ℚ)
    (seedN seedC : Nat) (kb : KB) (zuluText : String) :
    (∀ r, findSolution kb qv simE (translate zuluText "zu" "en").data = some r →
      r.category = "diseases" →
      generateMlAdvice translate qv simE seedN seedC kb zuluText
        = "For " ++ r.solution.name.getD "plant disease" ++ ": " ++
          joinComma (r.solution.solutions.getD ["Consult agricultural expert"]) ++
          ". Symptoms include: " ++
          joinComma (r.solution.symptoms.getD ["various signs"]) ++ ".") ∧
    (findSolution kb qv simE (translate zuluText "zu" "en").data = none →
      generateMlAdvice translate qv simE seedN seedC kb zuluText
        = generateAdviceText seedN seedC (translate zuluText "zu" "en").data) ∧
    generateMlAdvice translate qv simE seedN seedC kb zuluText ≠ "" := by
  refine ⟨?_, ?_, ?_⟩
  · intro r hr hcat
    simp only [generateMlAdvice, hr]
    rw [if_pos hcat]
  · intro hnone
    simp only [generateMlAdvice, hnone]
  · cases hfs : findSolution kb qv simE (translate zuluText "zu" "en").data with
    | none =>
      simp only [generateMlAdvice, hfs]
      exact generateAdviceText_ne_empty seedN seedC _
    | some r =>
      simp only [generateMlAdvice, hfs]
      by_cases h1 : r.category = "diseases"
      · rw [if_pos h1]
        apply append_ne_empty_left
        repeat rw [String.length_append]
        have hx : ("For " : String).length = 4 := rfl
        omega
      rw [if_neg h1]
      by_cases h2 : r.category = "pests"
      · rw [if_pos h2]
        apply append_ne_empty_left
        repeat rw [String.length_append]
        have hx : ("For " : String).length = 4 := rfl
        omega
      rw [if_neg h2]
      by_cases h3 : r.category = "fertilizers"
      · rw [if_pos h3]
        apply append_ne_empty_left
        repeat rw [String.length_append]
        have hx : ("For fertilization: " : String).length = 19 := rfl
        omega
      rw [if_neg h3]
      by_cases h4 : r.category = "watering"
      · rw [if_pos h4]
        apply append_ne_empty_left
        repeat rw [String.length_append]
        have hx : ("Watering guidance: " : String).length = 19 := rfl
        omega
      rw [if_neg h4]
      by_cases h5 : r.category = "planting"
      · rw [if_pos h5]
        apply append_ne_empty_left
        repeat rw [String.length_append]
        have hx : ("Planting advice for " : String).length = 20 := rfl
        omega
      rw [if_neg h5]
      exact generateAdviceText_ne_empty seedN seedC _

/-- Witness for C7: the query "disease problem" with an identity
translation adapter renders the Leaf Blight diseases template. -/
theorem c7_witness :
    generateMlAdvice (fun t _ _ => t) (.ok ()) (fun _ => .ok 0) 0 0
        (loadKnowledgeBase [] []) "disease problem"
      = "For " ++ leafBlight.name.getD "plant disease" ++ ": " ++
        joinComma (leafBlight.solutions.getD ["Consult agricultural expert"]) ++
        ". Symptoms include: " ++
        joinComma (leafBlight.symptoms.getD ["various signs"]) ++ "." :=
  (c7_compose_advice (fun t _ _ => t) (.ok ()) (fun _ => .ok 0) 0 0
    (loadKnowledgeBase [] []) "disease problem").1
    ⟨"diseases", leafBlight, 4/5⟩ rfl rfl

/-! ## C10: transcript choice between the two recognition attempts

The claim as frozen says the English transcript is chosen *only when* its
confidence is strictly greater than the isiZulu confidence and it is
non-empty.  The code has a third branch that chooses a non-empty English
transcript whenever the isiZulu transcript is empty, even at equal or
lower confidence. -/

/-- C10 counterexample: with English transcript "hello" at confidence 0
and an empty isiZulu transcript at confidence 0, the English transcript is
chosen although its confidence is not strictly greater. -/
theorem c10_counterexample :
    chooseTranscript "hello" 0 "" 0 = "hello" ∧ ¬ ((0 : ℚ) > (0 : ℚ)) := by
  constructor
  · unfold chooseTranscript
    rw [if_neg (fun h => lt_irrefl (0 : ℚ) h.1),
      if_neg (fun h => h rfl), if_pos (by decide)]
  · exact lt_irrefl 0

/-- C10 (amended): English is chosen whenever its confidence strictly
exceeds the isiZulu confidence and it is non-empty; otherwise a non-empty
isiZulu transcript is chosen (so at equal confidences the non-empty
isiZulu transcript is preferred); when the isiZulu transcript is empty a
non-empty English transcript is chosen regardless of confidence; and the
empty string is returned exactly when both transcripts are empty. -/
theorem c10_transcript_choice (et zt : String) (ec zc : ℚ) :
    (ec > zc ∧ et ≠ "" → chooseTranscript et ec zt zc = et) ∧
    (¬(ec > zc ∧ et ≠ "") → zt ≠ "" → chooseTranscript et ec zt zc = zt) ∧
    (¬(ec > zc ∧ et ≠ "") → zt = "" → et ≠ "" → chooseTranscript et ec zt zc = et) ∧
    (chooseTranscript et ec zt zc = "" ↔ (et = "" ∧ zt = "")) := by
  unfold chooseTranscript
  refine ⟨?_, ?_, ?_, ?_⟩
  · intro h; rw [if_pos h]
  · intro h hz; rw [if_neg h, if_pos hz]
  · intro h hz he
    rw [if_neg h, if_neg (show ¬ zt ≠ "" from fun hne => hne hz), if_pos he]
  · constructor
    · intro hres
      by_cases h1 : ec > zc ∧ et ≠ ""
      · rw [if_pos h1] at hres; exact absurd hres h1.2
      · rw [if_neg h1] at hres
        by_cases h2 : zt ≠ ""
        · rw [if_pos h2] at hres; exact absurd hres h2
        · rw [if_neg h2] at hres
          by_cases h3 : et ≠ ""
          · rw [if_pos h3] at hres; exact absurd hres h3
          · exact ⟨not_not.mp h3, not_not.mp h2⟩
    · rintro ⟨he, hz⟩
      subst he; subst hz
      rw [if_neg (fun h => h.2 rfl), if_neg (fun h => h rfl), if_neg (fun h => h rfl)]

/-- Witness for C10 at two concrete inputs: a strictly more confident
English transcript wins; at equal confidence the non-empty isiZulu
transcript wins. -/
theorem c10_witness :
    chooseTranscript "abc" 1 "def" 0 = "abc" ∧
    chooseTranscript "abc" 0 "def" 0 = "def" := by
  constructor
  · exact (c10_transcript_choice "abc" "def" 1 0).1 ⟨by norm_num, by decide⟩
  · exact (c10_transcript_choice "abc" "def" 0 0).2.1
      (by rintro ⟨h, _⟩; exact lt_irrefl 0 h) (by decide)
